import Mathlib

/-!
Verification development for the `flasher` web serial tool (`src/App.tsx`).

The source is a Preact application managing one serial session to an ESP32
class device.  We give a shallow embedding of its session logic:

* strings of the JS runtime are `List Char`, binary strings are `List Nat`
  (one entry per UTF-16 code unit);
* the mutable refs of `useSerialConnection` become the fields of
  `SessionState`; every operation is a pure function from a state (plus an
  `Env` describing the outcomes of the external serial / esptool calls)
  to a result in `Except Err _` paired with the successor state — JS
  `try`/`finally` becomes an explicit wrapper on that pair;
* the read loop of `sendCommand` is driven by a trace of `ReadEvent`s,
  each event being what one awaited `Promise.race` of a stream read
  against the 1000 ms sub-timeout yields; wall-clock time is a `Nat`
  of elapsed milliseconds.
-/

/-! ## String helpers (JS `includes` and `trim` over `List Char`) -/

def isPrefixL : List Char → List Char → Bool
  | p :: ps, c :: cs => p == c && isPrefixL ps cs
  | [], _ => true
  | _ :: _, [] => false

/-- JS `haystack.includes(pat)` : `pat` occurs as a contiguous substring. -/
def containsSub (pat : List Char) : List Char → Bool
  | [] => isPrefixL pat []
  | c :: tl => isPrefixL pat (c :: tl) || containsSub pat tl

def isSpaceChar (c : Char) : Bool :=
  c == ' ' || c == '\n' || c == '\t' || c == '\r' ||
    c == Char.ofNat 11 || c == Char.ofNat 12

/-- JS `String.prototype.trim` : strip whitespace from both ends. -/
def trimChars (l : List Char) : List Char :=
  ((l.dropWhile isSpaceChar).reverse.dropWhile isSpaceChar).reverse

def endMark : List Char := "END".toList

def errorMark : List Char := "ERROR".toList

/-- `response.includes("END") || response.includes("ERROR")` (App.tsx line 122). -/
def containsMarker (resp : List Char) : Bool :=
  containsSub endMark resp || containsSub errorMark resp

/-! ## The `sendCommand` read loop (App.tsx lines 95-133) -/

/-- What one loop iteration's `Promise.race([readPromise, timeoutPromise])`
yields.  `dt` is the milliseconds the awaited promise took to settle; a
`timeout` is the 1000 ms sub-timeout rejection, caught by the `catch`
followed by the 100 ms backoff; an `error` is a read rejection after
`dt` ms, handled by the same `catch`. -/
inductive ReadEvent
  | chunk (data : List Char) (dt : Nat)
  | done (dt : Nat)
  | timeout
  | error (dt : Nat)
deriving DecidableEq

inductive StopReason
  | budget
  | marker
  | streamDone
deriving DecidableEq

structure LoopOut where
  accum : List Char
  finish : Nat
  reason : StopReason
  reads : Nat
deriving DecidableEq

/-- Once the device trace is exhausted the device is silent: every further
read attempt costs the full 1000 ms sub-timeout plus the 100 ms backoff,
until the outer `while (Date.now() - startTime < 2000)` check fails.
Returns (finish time, number of further read attempts). -/
def silentLoop (t : Nat) : Nat × Nat :=
  ((2000 - t + 1099) / 1100 * 1100 + t, (2000 - t + 1099) / 1100)

def bump (r : LoopOut) : LoopOut :=
  { r with reads := r.reads + 1 }

/-- The accumulation loop of `sendCommand`, over a device trace.  `t` is the
elapsed time at the loop head, `accum` the accumulated decoded response. -/
def loop : List ReadEvent → Nat → List Char → LoopOut
  | [], t, accum =>
    if 2000 ≤ t then ⟨accum, t, StopReason.budget, 0⟩
    else ⟨accum, (silentLoop t).1, StopReason.budget, (silentLoop t).2⟩
  | ReadEvent.timeout :: rest, t, accum =>
    if 2000 ≤ t then ⟨accum, t, StopReason.budget, 0⟩
    else bump (loop rest (t + 1100) accum)
  | ReadEvent.error dt :: rest, t, accum =>
    if 2000 ≤ t then ⟨accum, t, StopReason.budget, 0⟩
    else bump (loop rest (t + dt + 100) accum)
  | ReadEvent.done dt :: rest, t, accum =>
    if 2000 ≤ t then ⟨accum, t, StopReason.budget, 0⟩
    else ⟨accum, t + dt, StopReason.streamDone, 1⟩
  | ReadEvent.chunk data dt :: rest, t, accum =>
    if 2000 ≤ t then ⟨accum, t, StopReason.budget, 0⟩
    else if data.length = 0 then bump (loop rest (t + dt) accum)
    else if containsMarker (accum ++ data) then
      ⟨accum ++ data, t + dt, StopReason.marker, 1⟩
    else bump (loop rest (t + dt) (accum ++ data))

/-- A physically possible race outcome: a promise that settles only after
the 1000 ms sub-timeout would have lost the race and shown up as `timeout`. -/
def wfEvent : ReadEvent → Bool
  | ReadEvent.chunk _ dt => dt < 1000
  | ReadEvent.done dt => dt < 1000
  | ReadEvent.timeout => true
  | ReadEvent.error dt => dt < 1000

/-! ## Session state (the refs and `useState` cells of App.tsx lines 12-21, 150-152, 210-212) -/

/-- A `SerialPort` object: `opened` mirrors whether `port.open` succeeded
(an open port has a non-null `readable`; `port.close()` nulls it), `baud`
the baud rate it was opened with. -/
structure Port where
  opened : Bool
  baud : Nat
deriving DecidableEq

structure SessionState where
  isConnected : Bool
  chip : Option (List Char)
  device : Bool
  transport : Bool
  espLoader : Bool
  serialPort : Option Port
  writer : Bool
  reader : Bool
  isErasing : Bool
  isProgramming : Bool
  progress : Nat
  isLoadingPrefs : Bool
  isUpdatingPrefs : Bool
  preferences : List Char
deriving DecidableEq

/-- Errors surfaced by the session operations (App.tsx throw sites and the
rejections of the external serial / esptool promises). -/
inductive Err
  | noDevice
  | notConnected
  | requestPortFailed
  | openFailed
  | detectFailed
  | eraseFailed
  | writeFailed
  | resetFailed
  | cancelFailed
  | writerCloseFailed
  | portCloseFailed
  | transportDisconnectFailed
  | noPreferences
  | invalidPreferences
  | updateError (resp : List Char)
  | noResponse
deriving DecidableEq

/-- Outcomes of the external (browser / esptool-js) calls an operation
performs: `true` means the awaited promise resolves, `false` that it
rejects.  `detect` is the result of `ESPLoader.main()`, `progressDuring`
the last percentage the `reportProgress` callback computed. -/
structure Env where
  requestPortOk : Bool
  openOk : Bool
  detect : Option (List Char)
  eraseOk : Bool
  writeOk : Bool
  resetOk : Bool
  cancelOk : Bool
  writerCloseOk : Bool
  portCloseOk : Bool
  transportDisconnectOk : Bool
  progressDuring : Nat
deriving DecidableEq

def nativeChip : List Char := "Native Connection".toList

def portOpen : Option Port → Bool
  | some p => p.opened
  | none => false

/-- `setupNativeSerial` (App.tsx lines 32-39): request a port, open it at
the configured baud rate, take the writer and reader, alias `deviceRef`,
set the chip label. -/
def setupNativeSerial (env : Env) (b : Nat) (s : SessionState) :
    Except Err Unit × SessionState :=
  if env.requestPortOk then
    if env.openOk then
      (Except.ok (),
        { s with serialPort := some ⟨true, b⟩, writer := true, reader := true,
                 device := true, chip := some nativeChip })
    else (Except.error Err.openFailed, { s with serialPort := some ⟨false, 0⟩ })
  else (Except.error Err.requestPortFailed, s)

/-- Third step of `closeNativeSerial` (App.tsx lines 51-54): close the
underlying port only if its `readable` is non-null (i.e. it is open). -/
def closePortStep (env : Env) (s : SessionState) : Except Err Unit × SessionState :=
  if portOpen s.serialPort then
    if env.portCloseOk then (Except.ok (), { s with serialPort := none })
    else (Except.error Err.portCloseFailed, s)
  else (Except.ok (), s)

/-- Second step of `closeNativeSerial` (App.tsx lines 47-50). -/
def closeWriterStep (env : Env) (s : SessionState) : Except Err Unit × SessionState :=
  if s.writer then
    if env.writerCloseOk then closePortStep env { s with writer := false }
    else (Except.error Err.writerCloseFailed, s)
  else closePortStep env s

/-- `closeNativeSerial` (App.tsx lines 41-55): cancel and release the
reader, close the writer, close the port; a rejection propagates and
aborts the remaining steps. -/
def closeNativeSerial (env : Env) (s : SessionState) : Except Err Unit × SessionState :=
  if s.reader then
    if env.cancelOk then closeWriterStep env { s with reader := false }
    else (Except.error Err.cancelFailed, s)
  else closeWriterStep env s

/-- `setupESPTool` (App.tsx lines 57-72): requires `deviceRef`, builds the
`Transport` and `ESPLoader` (both refs are assigned before detection runs),
then runs `main()` for chip detection. -/
def setupESPTool (env : Env) (s : SessionState) : Except Err (List Char) × SessionState :=
  if s.device then
    match env.detect with
    | some c =>
      (Except.ok c, { s with transport := true, espLoader := true, chip := some c })
    | none =>
      (Except.error Err.detectFailed, { s with transport := true, espLoader := true })
  else (Except.error Err.noDevice, s)

/-- `cleanupESPTool` (App.tsx lines 74-80). -/
def cleanupESPTool (env : Env) (s : SessionState) : Except Err Unit × SessionState :=
  if s.transport then
    if env.transportDisconnectOk then
      (Except.ok (), { s with transport := false, espLoader := false })
    else (Except.error Err.transportDisconnectFailed, s)
  else (Except.ok (), { s with espLoader := false })

/-- `connect` (App.tsx lines 82-85). -/
def connect (env : Env) (b : Nat) (s : SessionState) : Except Err Unit × SessionState :=
  match setupNativeSerial env b s with
  | (Except.ok _, s1) => (Except.ok (), { s1 with isConnected := true })
  | (Except.error e, s1) => (Except.error e, s1)

/-- `disconnect` (App.tsx lines 87-93). -/
def disconnect (env : Env) (s : SessionState) : Except Err Unit × SessionState :=
  match closeNativeSerial env s with
  | (Except.error e, s1) => (Except.error e, s1)
  | (Except.ok _, s1) =>
    match cleanupESPTool env s1 with
    | (Except.error e, s2) => (Except.error e, s2)
    | (Except.ok _, s2) =>
      (Except.ok (), { s2 with isConnected := false, chip := none, device := false })

/-! ## `sendCommand` (App.tsx lines 95-133) -/

/-- Observable transport traffic of one `sendCommand` call. -/
inductive SerialAction
  | write (bytes : List Char)
  | read
deriving DecidableEq

deriving instance DecidableEq for Except

structure SendOut where
  result : Except Err (List Char)
  finish : Nat
  actions : List SerialAction
deriving DecidableEq

/-- `sendCommand`: guard on the writer and reader refs, write
`command + "\n"`, run the accumulation loop over the device trace, return
the trimmed accumulated response.  `finish` is the elapsed time at return,
`actions` the transport traffic in order. -/
def sendCommand (s : SessionState) (cmd : List Char) (tr : List ReadEvent) : SendOut :=
  if s.writer && s.reader then
    let out := loop tr 0 []
    ⟨Except.ok (trimChars out.accum), out.finish,
      SerialAction.write (cmd ++ ['\n']) :: List.replicate out.reads SerialAction.read⟩
  else ⟨Except.error Err.notConnected, 0, []⟩

/-! ## Flash operations (App.tsx lines 149-207) -/

/-- Body of `eraseFlash` (App.tsx lines 156-162): the steps run strictly in
sequence and there is no catch — the first rejection aborts the rest. -/
def eraseBody (env : Env) (b : Nat) (s : SessionState) : Except Err Unit × SessionState :=
  match closeNativeSerial env s with
  | (Except.error e, s1) => (Except.error e, s1)
  | (Except.ok _, s1) =>
    match setupESPTool env s1 with
    | (Except.error e, s2) => (Except.error e, s2)
    | (Except.ok _, s2) =>
      match (if s2.espLoader then
               (if env.eraseOk then (Except.ok (), s2)
                else (Except.error Err.eraseFailed, s2))
             else (Except.ok (), s2) : Except Err Unit × SessionState) with
      | (Except.error e, s3) => (Except.error e, s3)
      | (Except.ok _, s3) =>
        match cleanupESPTool env s3 with
        | (Except.error e, s4) => (Except.error e, s4)
        | (Except.ok _, s4) => setupNativeSerial env b s4

/-- `eraseFlash` (App.tsx lines 154-166): body wrapped in
`try ... finally setIsErasing(false)`. -/
def eraseFlash (env : Env) (b : Nat) (s : SessionState) : Except Err Unit × SessionState :=
  let r := eraseBody env b { s with isErasing := true }
  (r.1, { r.2 with isErasing := false })

/-- The `writeFlash` call (App.tsx lines 175-188): guarded by the optional
chaining on `espLoaderRef.current`; progress callbacks fire while it runs. -/
def writeFlashStep (env : Env) (s : SessionState) : Except Err Unit × SessionState :=
  if s.espLoader then
    let s1 := { s with progress := env.progressDuring }
    if env.writeOk then (Except.ok (), s1) else (Except.error Err.writeFailed, s1)
  else (Except.ok (), s)

/-- `espLoaderRef.current?.after("hard_reset")` (App.tsx line 190). -/
def hardResetStep (env : Env) (s : SessionState) : Except Err Unit × SessionState :=
  if s.espLoader then
    if env.resetOk then (Except.ok (), s) else (Except.error Err.resetFailed, s)
  else (Except.ok (), s)

/-- Body of `programFlash` (App.tsx lines 172-193). -/
def programBody (env : Env) (b : Nat) (s : SessionState) : Except Err Unit × SessionState :=
  match closeNativeSerial env s with
  | (Except.error e, s1) => (Except.error e, s1)
  | (Except.ok _, s1) =>
    match setupESPTool env s1 with
    | (Except.error e, s2) => (Except.error e, s2)
    | (Except.ok _, s2) =>
      match writeFlashStep env s2 with
      | (Except.error e, s3) => (Except.error e, s3)
      | (Except.ok _, s3) =>
        match hardResetStep env s3 with
        | (Except.error e, s4) => (Except.error e, s4)
        | (Except.ok _, s4) =>
          match cleanupESPTool env s4 with
          | (Except.error e, s5) => (Except.error e, s5)
          | (Except.ok _, s5) => setupNativeSerial env b s5

/-- `programFlash` (App.tsx lines 168-198): sets the busy flag and zeroes
progress, runs the body, and in a `finally` clears the busy flag and
resets progress to 0 on every path. -/
def programFlash (env : Env) (b : Nat) (fileData : List Nat) (s : SessionState) :
    Except Err Unit × SessionState :=
  let r := programBody env b { s with isProgramming := true, progress := 0 }
  (r.1, { r.2 with isProgramming := false, progress := 0 })

/-! ## Preferences operations (App.tsx lines 209-259)

`JSON.parse` and `JSON.stringify` belong to the JS runtime; they enter the
model as oracle functions `parse` (throwing = `none`) and a printer over an
opaque type `J` of parsed JSON values. -/

def getPrefsCmd : List Char := "GET_ALL_PREFS".toList

def setPrefsHead : List Char := "SET_ALL_PREFS:".toList

def pingCmd : List Char := "PING".toList

/-- `getAllSettings` (App.tsx lines 214-231): send `GET_ALL_PREFS`; an empty
response throws, a parseable one is pretty-printed into the preferences
textarea, an unparseable one is shown raw; the loading flag clears in a
`finally`. -/
def getAllSettings {J : Type} (parse : List Char → Option J) (pretty : J → List Char)
    (tr : List ReadEvent) (s : SessionState) :
    Except Err Unit × SessionState × List SerialAction :=
  let s0 := { s with isLoadingPrefs := true }
  let so := sendCommand s0 getPrefsCmd tr
  let body : Except Err Unit × SessionState × List SerialAction :=
    match so.result with
    | Except.error e => (Except.error e, s0, so.actions)
    | Except.ok resp =>
      if resp = [] then (Except.error Err.noResponse, s0, so.actions)
      else
        match parse resp with
        | some j => (Except.ok (), { s0 with preferences := pretty j }, so.actions)
        | none => (Except.ok (), { s0 with preferences := resp }, so.actions)
  (body.1, { body.2.1 with isLoadingPrefs := false }, body.2.2)

/-- `updateAllSettings` (App.tsx lines 233-249): reject empty preferences,
then parse them — a parse failure throws before `sendCommand` runs — then
send `SET_ALL_PREFS:<json>` and treat a response containing `ERROR` as a
domain failure; the updating flag clears in a `finally`. -/
def updateAllSettings {J : Type} (parse : List Char → Option J) (stringify : J → List Char)
    (tr : List ReadEvent) (s : SessionState) :
    Except Err (List Char) × SessionState × List SerialAction :=
  if trimChars s.preferences = [] then (Except.error Err.noPreferences, s, [])
  else
    let s0 := { s with isUpdatingPrefs := true }
    let body : Except Err (List Char) × SessionState × List SerialAction :=
      match parse s.preferences with
      | none => (Except.error Err.invalidPreferences, s0, [])
      | some j =>
        let so := sendCommand s0 (setPrefsHead ++ stringify j) tr
        match so.result with
        | Except.error e => (Except.error e, s0, so.actions)
        | Except.ok resp =>
          if containsSub errorMark resp then
            (Except.error (Err.updateError resp), s0, so.actions)
          else (Except.ok ("Response: ".toList ++ resp), s0, so.actions)
    (body.1, { body.2.1 with isUpdatingPrefs := false }, body.2.2)

/-! ## Canonical states, session modes, and the data-model invariant -/

/-- The fresh, disconnected state of the hooks. -/
def initState : SessionState :=
  { isConnected := false, chip := none, device := false, transport := false,
    espLoader := false, serialPort := none, writer := false, reader := false,
    isErasing := false, isProgramming := false, progress := 0,
    isLoadingPrefs := false, isUpdatingPrefs := false, preferences := [] }

/-- The state after a successful `connect` at baud rate `b` (and after every
successful erase/program round trip). -/
def natState (b : Nat) : SessionState :=
  { isConnected := true, chip := some nativeChip, device := true, transport := false,
    espLoader := false, serialPort := some ⟨true, b⟩, writer := true, reader := true,
    isErasing := false, isProgramming := false, progress := 0,
    isLoadingPrefs := false, isUpdatingPrefs := false, preferences := [] }

/-- An environment in which every external call succeeds. -/
def envOk : Env :=
  { requestPortOk := true, openOk := true, detect := some "ESP32-S3".toList,
    eraseOk := true, writeOk := true, resetOk := true, cancelOk := true,
    writerCloseOk := true, portCloseOk := true, transportDisconnectOk := true,
    progressDuring := 100 }

inductive SessionMode
  | disconnected
  | native
  | bootloader
deriving DecidableEq

/-- The session mode of the data model, as the spec derives it: the
Disconnected / Native / Bootloader classification of a state. -/
def mode (s : SessionState) : SessionMode :=
  if s.isConnected = false then SessionMode.disconnected
  else if s.espLoader then SessionMode.bootloader
  else SessionMode.native

/-- The Transport Handle's resources (serial port / reader / writer) exist. -/
def transportExists (s : SessionState) : Bool :=
  s.reader || s.writer || portOpen s.serialPort

/-- Data-model invariant of §3: the Transport Handle exists iff the mode is
not Disconnected, and the Programmer Adapter exists iff the mode is
Bootloader. -/
def sessionInv (s : SessionState) : Bool :=
  (transportExists s == decide (mode s ≠ SessionMode.disconnected)) &&
    (s.espLoader == decide (mode s = SessionMode.bootloader))

/-- The user-triggered session operations, with the baud rate the UI holds
while they run. -/
inductive Op
  | connect (b : Nat)
  | disconnect
  | erase (b : Nat)
  | program (b : Nat) (fileData : List Nat)

def runOp (env : Env) : Op → SessionState → Except Err Unit × SessionState
  | Op.connect b, s => connect env b s
  | Op.disconnect, s => disconnect env s
  | Op.erase b, s => eraseFlash env b s
  | Op.program b d, s => programFlash env b d s

/-- Run a sequence of operations, stopping at the first failure. -/
def runOps (env : Env) : List Op → SessionState → Option SessionState
  | [], s => some s
  | op :: rest, s =>
    match runOp env op s with
    | (Except.ok _, s1) => runOps env rest s1
    | (Except.error _, _) => none

/-! ## The checksum function (App.tsx lines 185-187)

`CryptoJS.MD5(CryptoJS.enc.Latin1.parse(image)).toString()` — CryptoJS is an
external dependency whose code is not part of this repository, so its
behavior is modelled from the spec below.  Machine words are `Nat`s kept
below `2 ^ 32` by explicit reduction. -/

/-- Modelled from the spec: `CryptoJS.enc.Latin1.parse` — the repository does
not contain CryptoJS; §4.4 describes the checksum input as "the raw image
bytes interpreted as single-byte/Latin-1 characters", i.e. each UTF-16 code
unit truncated to its low byte. -/
def latin1Parse (image : List Nat) : List Nat :=
  image.map (fun c => c % 256)

def rotl32 (x s : Nat) : Nat :=
  ((x % 4294967296) * 2 ^ s + (x % 4294967296) / 2 ^ (32 - s)) % 4294967296

def not32 (x : Nat) : Nat :=
  4294967295 - (x % 4294967296)

/-- The 64 MD5 sine-table constants. -/
def mdK : List Nat :=
  [0xd76aa478, 0xe8c7b756, 0x242070db, 0xc1bdceee,
   0xf57c0faf, 0x4787c62a, 0xa8304613, 0xfd469501,
   0x698098d8, 0x8b44f7af, 0xffff5bb1, 0x895cd7be,
   0x6b901122, 0xfd987193, 0xa679438e, 0x49b40821,
   0xf61e2562, 0xc040b340, 0x265e5a51, 0xe9b6c7aa,
   0xd62f105d, 0x02441453, 0xd8a1e681, 0xe7d3fbc8,
   0x21e1cde6, 0xc33707d6, 0xf4d50d87, 0x455a14ed,
   0xa9e3e905, 0xfcefa3f8, 0x676f02d9, 0x8d2a4c8a,
   0xfffa3942, 0x8771f681, 0x6d9d6122, 0xfde5380c,
   0xa4beea44, 0x4bdecfa9, 0xf6bb4b60, 0xbebfbc70,
   0x289b7ec6, 0xeaa127fa, 0xd4ef3085, 0x04881d05,
   0xd9d4d039, 0xe6db99e5, 0x1fa27cf8, 0xc4ac5665,
   0xf4292244, 0x432aff97, 0xab9423a7, 0xfc93a039,
   0x655b59c3, 0x8f0ccc92, 0xffeff47d, 0x85845dd1,
   0x6fa87e4f, 0xfe2ce6e0, 0xa3014314, 0x4e0811a1,
   0xf7537e82, 0xbd3af235, 0x2ad7d2bb, 0xeb86d391]

/-- The 64 MD5 per-round left-rotation amounts. -/
def mdS : List Nat :=
  [7, 12, 17, 22, 7, 12, 17, 22, 7, 12, 17, 22, 7, 12, 17, 22,
   5, 9, 14, 20, 5, 9, 14, 20, 5, 9, 14, 20, 5, 9, 14, 20,
   4, 11, 16, 23, 4, 11, 16, 23, 4, 11, 16, 23, 4, 11, 16, 23,
   6, 10, 15, 21, 6, 10, 15, 21, 6, 10, 15, 21, 6, 10, 15, 21]

/-- Little-endian word `g` of a 64-byte block. -/
def wordAt (block : List Nat) (g : Nat) : Nat :=
  block.getD (4 * g) 0 + 256 * block.getD (4 * g + 1) 0 +
    65536 * block.getD (4 * g + 2) 0 + 16777216 * block.getD (4 * g + 3) 0

/-- One of the 64 MD5 rounds on state `(a, b, c, d)`. -/
def md5Round (block : List Nat) (st : Nat × Nat × Nat × Nat) (i : Nat) :
    Nat × Nat × Nat × Nat :=
  let a := st.1
  let b := st.2.1
  let c := st.2.2.1
  let d := st.2.2.2
  let f :=
    if i < 16 then (b &&& c) ||| (not32 b &&& d)
    else if i < 32 then (d &&& b) ||| (not32 d &&& c)
    else if i < 48 then b ^^^ c ^^^ d
    else c ^^^ (b ||| not32 d)
  let g :=
    if i < 16 then i
    else if i < 32 then (5 * i + 1) % 16
    else if i < 48 then (3 * i + 5) % 16
    else (7 * i) % 16
  let tmp := (f + a + mdK.getD i 0 + wordAt block g) % 4294967296
  (d, (b + rotl32 tmp (mdS.getD i 0)) % 4294967296, b, c)

/-- Process one 64-byte block into the running digest state. -/
def md5Block (st : Nat × Nat × Nat × Nat) (block : List Nat) : Nat × Nat × Nat × Nat :=
  let r := (List.range 64).foldl (md5Round block) st
  ((st.1 + r.1) % 4294967296, (st.2.1 + r.2.1) % 4294967296,
   (st.2.2.1 + r.2.2.1) % 4294967296, (st.2.2.2 + r.2.2.2) % 4294967296)

def leBytes4 (x : Nat) : List Nat :=
  [x % 256, x / 256 % 256, x / 65536 % 256, x / 16777216 % 256]

def leBytes8 (x : Nat) : List Nat :=
  leBytes4 (x % 4294967296) ++ leBytes4 (x / 4294967296 % 4294967296)

/-- MD5 padding: a 0x80 byte, zeros to 56 mod 64, then the bit length as a
64-bit little-endian quantity. -/
def md5Pad (msg : List Nat) : List Nat :=
  msg ++ [128] ++ List.replicate ((119 - msg.length % 64) % 64) 0 ++
    leBytes8 (8 * msg.length % 18446744073709551616)

def chunk64 (l : List Nat) : List (List Nat) :=
  (List.range (l.length / 64)).map (fun i => (l.drop (64 * i)).take 64)

/-- Modelled from the spec: `CryptoJS.MD5` over a byte sequence — the
repository does not contain CryptoJS; §4.4 fixes the reference behavior as
standard MD5.  Returns the 16 digest bytes. -/
def md5Bytes (msg : List Nat) : List Nat :=
  let st := (chunk64 (md5Pad msg)).foldl md5Block
    (0x67452301, 0xefcdab89, 0x98badcfe, 0x10325476)
  leBytes4 st.1 ++ leBytes4 st.2.1 ++ leBytes4 st.2.2.1 ++ leBytes4 st.2.2.2

def hexAlphabet : List Char := "0123456789abcdef".toList

def hexDigit (n : Nat) : Char :=
  hexAlphabet.getD (n % 16) '0'

def byteHex (b : Nat) : List Char :=
  [hexDigit (b / 16), hexDigit (b % 16)]

/-- Modelled from the spec: `WordArray.toString()` with the default CryptoJS
`Hex` encoder — a lowercase hexadecimal rendering of the digest bytes. -/
def md5Hex (msg : List Nat) : List Char :=
  (md5Bytes msg).flatMap byteHex

/-- The checksum closure handed to `writeFlash` (App.tsx lines 185-187). -/
def calculateMD5Hash (image : List Nat) : List Char :=
  md5Hex (latin1Parse image)

def isLowerHexChar (c : Char) : Bool :=
  hexAlphabet.contains c

/-! ## Concrete environments and inputs used in counterexamples and witnesses -/

/-- Everything succeeds except the adapter's `eraseFlash`, which rejects. -/
def envEraseFail : Env := { envOk with eraseOk := false }

/-- Everything succeeds except `reader.cancel()`, which rejects. -/
def envCancelFail : Env := { envOk with cancelOk := false }

/-- Everything succeeds except `requestPort`, which rejects (e.g. the user
dismisses the browser port picker). -/
def envPortFail : Env := { envOk with requestPortOk := false }

/-- A device trace: one prompt chunk ending in the END marker. -/
def trW : List ReadEvent := [ReadEvent.chunk "ok END".toList 50]

/-- A state whose preferences textarea holds non-JSON text. -/
def prefStateW : SessionState := { initState with preferences := ['x'] }

/-! ## Helper lemmas -/

theorem silentLoop_ge (t : Nat) : 2000 ≤ (silentLoop t).1 := by
  simp only [silentLoop]
  omega

theorem silentLoop_le (t : Nat) : (silentLoop t).1 ≤ max t 3099 := by
  simp only [silentLoop]
  omega

/-- The read loop never runs past a termination marker: given that the
accumulated response holds no marker at loop entry, the loop reports
`marker` exactly when its final accumulated response holds one. -/
theorem loop_marker_iff : ∀ (evs : List ReadEvent) (t : Nat) (accum : List Char),
    containsMarker accum = false →
    ((loop evs t accum).reason = StopReason.marker ↔
      containsMarker (loop evs t accum).accum = true) := by
  intro evs
  induction evs with
  | nil =>
    intro t accum h
    simp only [loop]
    split <;> simp [h]
  | cons e rest ih =>
    intro t accum h
    cases e with
    | timeout =>
      simp only [loop]
      split
      · simp [h]
      · simpa [bump] using ih (t + 1100) accum h
    | error dt =>
      simp only [loop]
      split
      · simp [h]
      · simpa [bump] using ih (t + dt + 100) accum h
    | done dt =>
      simp only [loop]
      split <;> simp [h]
    | chunk data dt =>
      simp only [loop]
      split
      · simp [h]
      · split
        · simpa [bump] using ih (t + dt) accum h
        · split
          · simp_all
          · rename_i hnm
            simpa [bump] using ih (t + dt) (accum ++ data) (by simpa using hnm)

/-- The loop reports `budget` only when the 2000 ms outer budget has
actually elapsed at the moment it returns. -/
theorem loop_budget_finish : ∀ (evs : List ReadEvent) (t : Nat) (accum : List Char),
    (loop evs t accum).reason = StopReason.budget → 2000 ≤ (loop evs t accum).finish := by
  intro evs
  induction evs with
  | nil =>
    intro t accum _
    simp only [loop]
    split
    · simpa
    · simpa using silentLoop_ge t
  | cons e rest ih =>
    intro t accum
    cases e with
    | timeout =>
      simp only [loop]
      split
      · intro _hb
        show 2000 ≤ t
        omega
      · simpa [bump] using ih (t + 1100) accum
    | error dt =>
      simp only [loop]
      split
      · intro _hb
        show 2000 ≤ t
        omega
      · simpa [bump] using ih (t + dt + 100) accum
    | done dt =>
      simp only [loop]
      split
      · intro _hb
        show 2000 ≤ t
        omega
      · simp
    | chunk data dt =>
      simp only [loop]
      split
      · intro _hb
        show 2000 ≤ t
        omega
      · split
        · simpa [bump] using ih (t + dt) accum
        · split
          · simp
          · simpa [bump] using ih (t + dt) (accum ++ data)

/-- On a physically possible trace the loop finishes by 3099 ms: the last
iteration starts strictly before 2000 and costs at most 1000 ms sub-timeout
plus the 100 ms backoff. -/
theorem loop_finish_le : ∀ (evs : List ReadEvent) (t : Nat) (accum : List Char),
    (∀ e ∈ evs, wfEvent e = true) →
    (loop evs t accum).finish ≤ max t 3099 := by
  intro evs
  induction evs with
  | nil =>
    intro t accum _
    simp only [loop]
    split
    · simp
    · simpa using silentLoop_le t
  | cons e rest ih =>
    intro t accum hwf
    have he : wfEvent e = true := hwf e (List.mem_cons_self e rest)
    have hrest : ∀ x ∈ rest, wfEvent x = true := fun x hx => hwf x (List.mem_cons_of_mem e hx)
    cases e with
    | timeout =>
      simp only [loop]
      split
      · simp
      · have := ih (t + 1100) accum hrest
        simp only [bump] at *
        omega
    | error dt =>
      simp only [wfEvent] at he
      simp only [loop]
      split
      · simp
      · have := ih (t + dt + 100) accum hrest
        simp only [bump] at *
        simp only [decide_eq_true_eq] at he
        omega
    | done dt =>
      simp only [wfEvent, decide_eq_true_eq] at he
      simp only [loop]
      split
      · simp
      · simp
        omega
    | chunk data dt =>
      simp only [wfEvent, decide_eq_true_eq] at he
      simp only [loop]
      split
      · simp
      · split
        · have := ih (t + dt) accum hrest
          simp only [bump] at *
          omega
        · split
          · simp
            omega
          · have := ih (t + dt) (accum ++ data) hrest
            simp only [bump] at *
            omega

set_option maxRecDepth 100000 in
/-- Known-answer test: MD5 of the empty message. -/
theorem md5Hex_nil : md5Hex [] = "d41d8cd98f00b204e9800998ecf8427e".toList := by decide

set_option maxRecDepth 100000 in
/-- Known-answer test: MD5 of "abc". -/
theorem md5Hex_abc :
    md5Hex [97, 98, 99] = "900150983cd24fb0d6963f7d28e17f72".toList := by decide

theorem closePortStep_ok (env : Env) (s : SessionState) (h3 : env.portCloseOk = true) :
    closePortStep env s =
      (Except.ok (), { s with serialPort :=
        (if portOpen s.serialPort then none else s.serialPort) }) := by
  by_cases hp : portOpen s.serialPort
  · simp [closePortStep, h3, hp]
  · simp [closePortStep, hp]

theorem closeWriterStep_ok (env : Env) (s : SessionState)
    (h2 : env.writerCloseOk = true) (h3 : env.portCloseOk = true) :
    closeWriterStep env s =
      (Except.ok (), { s with writer := false, serialPort :=
        (if portOpen s.serialPort then none else s.serialPort) }) := by
  by_cases hw : s.writer
  · simp [closeWriterStep, hw, h2, closePortStep_ok env _ h3]
  · simp only [Bool.not_eq_true] at hw
    simp [closeWriterStep, hw, closePortStep_ok env s h3]

theorem closeNativeSerial_ok (env : Env) (s : SessionState)
    (h1 : env.cancelOk = true) (h2 : env.writerCloseOk = true) (h3 : env.portCloseOk = true) :
    closeNativeSerial env s =
      (Except.ok (), { s with reader := false, writer := false, serialPort :=
        (if portOpen s.serialPort then none else s.serialPort) }) := by
  by_cases hr : s.reader
  · simp [closeNativeSerial, hr, h1, closeWriterStep_ok env _ h2 h3]
  · simp only [Bool.not_eq_true] at hr
    simp [closeNativeSerial, hr, closeWriterStep_ok env s h2 h3]

theorem cleanupESPTool_ok (env : Env) (s : SessionState)
    (h4 : env.transportDisconnectOk = true) :
    cleanupESPTool env s =
      (Except.ok (), { s with transport := false, espLoader := false }) := by
  by_cases ht : s.transport
  · simp [cleanupESPTool, ht, h4]
  · simp only [Bool.not_eq_true] at ht
    simp [cleanupESPTool, ht]

theorem hexDigit_lower (n : Nat) : isLowerHexChar (hexDigit n) = true := by
  have h : n % 16 < 16 := Nat.mod_lt _ (by omega)
  set k := n % 16 with hk
  unfold hexDigit
  rw [← hk]
  interval_cases k <;> decide

theorem flatMap_byteHex_length : ∀ l : List Nat, (l.flatMap byteHex).length = 2 * l.length := by
  intro l
  induction l with
  | nil => simp
  | cons x xs ih =>
    simp [byteHex, ih]
    omega

theorem md5Bytes_length (msg : List Nat) : (md5Bytes msg).length = 16 := by
  simp [md5Bytes, leBytes4]

theorem flatMap_byteHex_lower (l : List Nat) :
    ((l.flatMap byteHex).all isLowerHexChar) = true := by
  rw [List.all_eq_true]
  intro c hc
  rw [List.mem_flatMap] at hc
  obtain ⟨b, _, hcb⟩ := hc
  simp only [byteHex, List.mem_cons, List.not_mem_nil, or_false] at hcb
  rcases hcb with h | h <;> subst h <;> exact hexDigit_lower _

theorem runOp_connect_from_init (b : Nat) :
    runOp envOk (Op.connect b) initState = (Except.ok (), natState b) := rfl

theorem runOp_connect_from_nat (b b0 : Nat) :
    runOp envOk (Op.connect b) (natState b0) = (Except.ok (), natState b) := rfl

theorem runOp_disconnect_from_init :
    runOp envOk Op.disconnect initState = (Except.ok (), initState) := rfl

theorem runOp_disconnect_from_nat (b0 : Nat) :
    runOp envOk Op.disconnect (natState b0) = (Except.ok (), initState) := rfl

theorem runOp_erase_from_init (b : Nat) :
    runOp envOk (Op.erase b) initState = (Except.error Err.noDevice, initState) := rfl

theorem runOp_erase_from_nat (b b0 : Nat) :
    runOp envOk (Op.erase b) (natState b0) = (Except.ok (), natState b) := rfl

theorem runOp_program_from_init (b : Nat) (d : List Nat) :
    runOp envOk (Op.program b d) initState = (Except.error Err.noDevice, initState) := rfl

theorem runOp_program_from_nat (b b0 : Nat) (d : List Nat) :
    runOp envOk (Op.program b d) (natState b0) = (Except.ok (), natState b) := rfl

/-- Under an all-successful environment, the states reachable from the fresh
state by completed operations are exactly the disconnected state and the
native-connected states. -/
theorem runOps_reach : ∀ (ops : List Op) (s0 : SessionState),
    (s0 = initState ∨ ∃ b, s0 = natState b) →
    ∀ s, runOps envOk ops s0 = some s → s = initState ∨ ∃ b, s = natState b := by
  intro ops
  induction ops with
  | nil =>
    intro s0 h0 s hs
    simp only [runOps, Option.some.injEq] at hs
    exact hs ▸ h0
  | cons op rest ih =>
    intro s0 h0 s hs
    rcases h0 with h0 | ⟨b0, h0⟩
    · subst h0
      cases op with
      | connect b =>
        rw [runOps, runOp_connect_from_init] at hs
        exact ih (natState b) (Or.inr ⟨b, rfl⟩) s hs
      | disconnect =>
        rw [runOps, runOp_disconnect_from_init] at hs
        exact ih initState (Or.inl rfl) s hs
      | erase b =>
        rw [runOps, runOp_erase_from_init] at hs
        exact absurd hs (by simp)
      | program b d =>
        rw [runOps, runOp_program_from_init] at hs
        exact absurd hs (by simp)
    · subst h0
      cases op with
      | connect b =>
        rw [runOps, runOp_connect_from_nat] at hs
        exact ih (natState b) (Or.inr ⟨b, rfl⟩) s hs
      | disconnect =>
        rw [runOps, runOp_disconnect_from_nat] at hs
        exact ih initState (Or.inl rfl) s hs
      | erase b =>
        rw [runOps, runOp_erase_from_nat] at hs
        exact ih (natState b) (Or.inr ⟨b, rfl⟩) s hs
      | program b d =>
        rw [runOps, runOp_program_from_nat] at hs
        exact ih (natState b) (Or.inr ⟨b, rfl⟩) s hs

/-! ## Claim theorems -/

/-- Claim C1: with both writer and reader present, `sendCommand` writes
`command + "\n"` before any read, accumulates decoded chunks, stops as soon
as the accumulated response contains `END` or `ERROR` (reporting `budget`
only once the 2000 ms outer budget has elapsed), and always returns the
accumulated response trimmed of surrounding whitespace — never an error. -/
theorem sendCommand_spec (s : SessionState) (cmd : List Char) (tr : List ReadEvent)
    (hw : s.writer = true) (hr : s.reader = true) :
    (sendCommand s cmd tr).result = Except.ok (trimChars (loop tr 0 []).accum) ∧
    (sendCommand s cmd tr).actions.head? = some (SerialAction.write (cmd ++ ['\n'])) ∧
    (∀ a ∈ (sendCommand s cmd tr).actions.tail, a = SerialAction.read) ∧
    ((loop tr 0 []).reason = StopReason.marker ↔
      containsMarker (loop tr 0 []).accum = true) ∧
    ((loop tr 0 []).reason = StopReason.budget → 2000 ≤ (loop tr 0 []).finish) := by
  refine ⟨?_, ?_, ?_, ?_, ?_⟩
  · simp [sendCommand, hw, hr]
  · simp [sendCommand, hw, hr]
  · intro a ha
    simp only [sendCommand, hw, hr, Bool.and_self, if_pos] at ha
    simp only [List.tail_cons] at ha
    exact List.eq_of_mem_replicate ha
  · exact loop_marker_iff tr 0 [] (by decide)
  · exact loop_budget_finish tr 0 []

/-- Claim C1 witness: the behavior at a concrete connected state and a
concrete device trace. -/
theorem sendCommand_spec_witness :
    (sendCommand (natState 115200) pingCmd trW).result
        = Except.ok (trimChars (loop trW 0 []).accum) ∧
    (sendCommand (natState 115200) pingCmd trW).actions.head?
        = some (SerialAction.write (pingCmd ++ ['\n'])) ∧
    (∀ a ∈ (sendCommand (natState 115200) pingCmd trW).actions.tail,
        a = SerialAction.read) ∧
    ((loop trW 0 []).reason = StopReason.marker ↔
      containsMarker (loop trW 0 []).accum = true) ∧
    ((loop trW 0 []).reason = StopReason.budget → 2000 ≤ (loop trW 0 []).finish) :=
  sendCommand_spec (natState 115200) pingCmd trW rfl rfl

/-- Claim C2 counterexample: on a trace of two sub-timeouts the call only
returns at 2200 ms — the 2000 ms wall-clock bound of the claim fails,
because the outer budget is checked only between read attempts. -/
theorem sendCommand_2000ms_counterexample :
    (sendCommand (natState 115200) pingCmd [ReadEvent.timeout, ReadEvent.timeout]).result
        = Except.ok [] ∧
    (sendCommand (natState 115200) pingCmd [ReadEvent.timeout, ReadEvent.timeout]).finish
        = 2200 ∧
    ¬ (sendCommand (natState 115200) pingCmd
        [ReadEvent.timeout, ReadEvent.timeout]).finish ≤ 2000 := by
  decide

/-- Claim C2 (amended): on any physically possible trace `sendCommand`
returns, within 3099 ms — the 2000 ms outer budget plus one final read
attempt of at most 1000 ms sub-timeout and 100 ms backoff — and yields the
(possibly empty or partial) trimmed accumulated string, never an error. -/
theorem sendCommand_bounded (s : SessionState) (cmd : List Char) (tr : List ReadEvent)
    (hw : s.writer = true) (hr : s.reader = true)
    (hwf : ∀ e ∈ tr, wfEvent e = true) :
    (sendCommand s cmd tr).finish ≤ 3099 ∧
    (sendCommand s cmd tr).result = Except.ok (trimChars (loop tr 0 []).accum) := by
  constructor
  · have hb := loop_finish_le tr 0 [] hwf
    simp only [sendCommand, hw, hr, Bool.and_self, if_pos]
    omega
  · simp [sendCommand, hw, hr]

/-- Claim C2 witness: the bound at a concrete state and an all-silent
two-attempt trace. -/
theorem sendCommand_bounded_witness :
    (sendCommand (natState 115200) pingCmd [ReadEvent.timeout, ReadEvent.timeout]).finish
        ≤ 3099 ∧
    (sendCommand (natState 115200) pingCmd [ReadEvent.timeout, ReadEvent.timeout]).result
        = Except.ok (trimChars (loop [ReadEvent.timeout, ReadEvent.timeout] 0 []).accum) :=
  sendCommand_bounded (natState 115200) pingCmd [ReadEvent.timeout, ReadEvent.timeout]
    rfl rfl (by decide)

/-- Claim C3 counterexample: when the adapter's erase rejects, `eraseFlash`
propagates the error with the ESP loader and transport still in place — the
session is left in Bootloader mode, no bootloader-exit cleanup is attempted
(only the erasing flag is cleared). -/
theorem eraseFlash_cleanup_counterexample :
    (eraseFlash envEraseFail 115200 (natState 115200)).1 = Except.error Err.eraseFailed ∧
    (eraseFlash envEraseFail 115200 (natState 115200)).2.espLoader = true ∧
    (eraseFlash envEraseFail 115200 (natState 115200)).2.transport = true ∧
    mode (eraseFlash envEraseFail 115200 (natState 115200)).2 = SessionMode.bootloader ∧
    (eraseFlash envEraseFail 115200 (natState 115200)).2.isErasing = false := by
  decide

/-- Claim C3 (amended): `eraseFlash` has no catch path — from a
native-connected session, a failing adapter erase aborts the remaining
steps, the original error propagates, only the erasing busy-flag is cleared
in the `finally`, and the Programmer Adapter (and its transport) is left in
place, i.e. the session stays in Bootloader mode. -/
theorem eraseFlash_failure_no_cleanup (env : Env) (b b2 : Nat) (c : List Char)
    (s : SessionState)
    (h1 : env.cancelOk = true) (h2 : env.writerCloseOk = true)
    (h3 : env.portCloseOk = true) (h4 : env.detect = some c) (h5 : env.eraseOk = false)
    (hR : s.reader = true) (hW : s.writer = true)
    (hP : s.serialPort = some ⟨true, b2⟩) (hD : s.device = true) :
    (eraseFlash env b s).1 = Except.error Err.eraseFailed ∧
    (eraseFlash env b s).2.espLoader = true ∧
    (eraseFlash env b s).2.transport = true ∧
    (eraseFlash env b s).2.isErasing = false := by
  have hclose := closeNativeSerial_ok env { s with isErasing := true } h1 h2 h3
  simp only [hP, hD, portOpen, if_true] at hclose
  simp [eraseFlash, eraseBody, hclose, setupESPTool, cleanupESPTool, hD, hP, h4, h5]

/-- Claim C3 witness: the amended behavior at the concrete connected state
and failing-erase environment. -/
theorem eraseFlash_failure_no_cleanup_witness :
    (eraseFlash envEraseFail 115200 (natState 115200)).1
        = Except.error Err.eraseFailed ∧
    (eraseFlash envEraseFail 115200 (natState 115200)).2.espLoader = true ∧
    (eraseFlash envEraseFail 115200 (natState 115200)).2.transport = true ∧
    (eraseFlash envEraseFail 115200 (natState 115200)).2.isErasing = false :=
  eraseFlash_failure_no_cleanup envEraseFail 115200 115200 ("ESP32-S3".toList)
    (natState 115200) rfl rfl rfl rfl rfl rfl rfl rfl rfl

/-- Claim C4 counterexample: when `reader.cancel()` rejects, `disconnect`
propagates the error instead of absorbing it, and the session is left
connected with the reader and writer still held — it does not always
succeed and failures are not merely logged. -/
theorem disconnect_swallow_counterexample :
    (disconnect envCancelFail (natState 115200)).1 = Except.error Err.cancelFailed ∧
    (disconnect envCancelFail (natState 115200)).2.isConnected = true ∧
    (disconnect envCancelFail (natState 115200)).2.reader = true ∧
    (disconnect envCancelFail (natState 115200)).2.writer = true ∧
    mode (disconnect envCancelFail (natState 115200)).2 ≠ SessionMode.disconnected := by
  decide

/-- Claim C4 (amended): when every release step succeeds, `disconnect` —
from any state — releases the reader, writer, serial port, transport and
ESP loader, clears the chip identity and device, and moves the session to
Disconnected; but a release failure propagates to the caller and aborts the
remaining cleanup (witnessed by the counterexample). -/
theorem disconnect_releases (env : Env) (s : SessionState)
    (h1 : env.cancelOk = true) (h2 : env.writerCloseOk = true)
    (h3 : env.portCloseOk = true) (h4 : env.transportDisconnectOk = true) :
    (disconnect env s).1 = Except.ok () ∧
    (disconnect env s).2.isConnected = false ∧
    (disconnect env s).2.chip = none ∧
    (disconnect env s).2.device = false ∧
    (disconnect env s).2.reader = false ∧
    (disconnect env s).2.writer = false ∧
    (disconnect env s).2.transport = false ∧
    (disconnect env s).2.espLoader = false ∧
    portOpen (disconnect env s).2.serialPort = false ∧
    mode (disconnect env s).2 = SessionMode.disconnected := by
  have hclose := closeNativeSerial_ok env s h1 h2 h3
  have hcleanup := cleanupESPTool_ok env
    { s with reader := false, writer := false, serialPort :=
      (if portOpen s.serialPort then none else s.serialPort) } h4
  simp only [disconnect, hclose, hcleanup]
  rcases hsp : s.serialPort with _ | p
  · simp [hsp, portOpen, mode]
  · cases hpo : p.opened
    · simp [hsp, hpo, portOpen, mode]
    · simp [hsp, hpo, portOpen, mode]

/-- Claim C4 witness: the amended behavior at the concrete connected state
under an all-successful environment. -/
theorem disconnect_releases_witness :
    (disconnect envOk (natState 115200)).1 = Except.ok () ∧
    (disconnect envOk (natState 115200)).2.isConnected = false ∧
    (disconnect envOk (natState 115200)).2.chip = none ∧
    (disconnect envOk (natState 115200)).2.device = false ∧
    (disconnect envOk (natState 115200)).2.reader = false ∧
    (disconnect envOk (natState 115200)).2.writer = false ∧
    (disconnect envOk (natState 115200)).2.transport = false ∧
    (disconnect envOk (natState 115200)).2.espLoader = false ∧
    portOpen (disconnect envOk (natState 115200)).2.serialPort = false ∧
    mode (disconnect envOk (natState 115200)).2 = SessionMode.disconnected :=
  disconnect_releases envOk (natState 115200) rfl rfl rfl rfl

/-- Claim C5 counterexample: an erase whose final native-mode restoration
fails at `requestPort` is a completed (failed) erase that leaves the session
connected (mode Native) with no transport resources at all — the
"Transport Handle exists iff mode is not Disconnected" invariant is
violated, so it does not hold after operations that finish by failure. -/
theorem session_inv_counterexample :
    connect envOk 115200 initState = (Except.ok (), natState 115200) ∧
    (eraseFlash envPortFail 115200 (natState 115200)).1
        = Except.error Err.requestPortFailed ∧
    mode (eraseFlash envPortFail 115200 (natState 115200)).2 = SessionMode.native ∧
    transportExists (eraseFlash envPortFail 115200 (natState 115200)).2 = false ∧
    sessionInv (eraseFlash envPortFail 115200 (natState 115200)).2 = false := by
  decide

/-- Claim C5 (amended): in every state reachable from the fresh session by
operations that complete successfully, the Transport Handle exists iff the
mode is not Disconnected and the Programmer Adapter exists iff the mode is
Bootloader; an operation that finishes by failure can break the invariant
(witnessed by the counterexample). -/
theorem session_inv_reachable (ops : List Op) (s : SessionState)
    (hs : runOps envOk ops initState = some s) : sessionInv s = true := by
  rcases runOps_reach ops initState (Or.inl rfl) s hs with h | ⟨b, h⟩
  · subst h
    decide
  · subst h
    rfl

/-- Claim C5 witness: the invariant after a concrete
connect-erase-disconnect run. -/
theorem session_inv_reachable_witness : sessionInv initState = true :=
  session_inv_reachable [Op.connect 115200, Op.erase 115200, Op.disconnect] initState
    (by decide)

/-- Claim C6: `programFlash` resets progress to 0 and the programming
busy-flag to false before returning, on every path — success or failure at
any step — because both resets sit in the `finally`. -/
theorem programFlash_resets (env : Env) (b : Nat) (d : List Nat) (s : SessionState) :
    (programFlash env b d s).2.isProgramming = false ∧
    (programFlash env b d s).2.progress = 0 :=
  ⟨rfl, rfl⟩

/-- Claim C7: the checksum handed to `writeFlash` is a pure function of the
image: it is MD5 over the image's code units truncated to Latin-1 bytes,
rendered as lowercase hex — 32 characters drawn from 0-9 and a-f. -/
theorem calculateMD5Hash_spec (image : List Nat) :
    calculateMD5Hash image = md5Hex (latin1Parse image) ∧
    (calculateMD5Hash image).length = 32 ∧
    (calculateMD5Hash image).all isLowerHexChar = true := by
  refine ⟨rfl, ?_, ?_⟩
  · show (md5Hex (latin1Parse image)).length = 32
    rw [md5Hex, flatMap_byteHex_length, md5Bytes_length]
  · show ((md5Bytes (latin1Parse image)).flatMap byteHex).all isLowerHexChar = true
    exact flatMap_byteHex_lower _

/-- Claim C8: with non-empty preferences text that does not parse as JSON,
`updateAllSettings` fails with the invalid-preferences error before any
transport traffic — `sendCommand` is never invoked (no actions), and the
state is untouched apart from the updating flag round-trip. -/
theorem updateAllSettings_rejects (J : Type) (parse : List Char → Option J)
    (stringify : J → List Char) (tr : List ReadEvent) (s : SessionState)
    (h1 : trimChars s.preferences ≠ []) (h2 : parse s.preferences = none) :
    updateAllSettings parse stringify tr s =
      (Except.error Err.invalidPreferences, { s with isUpdatingPrefs := false }, []) := by
  simp [updateAllSettings, h1, h2]

/-- Claim C8 witness: concrete non-JSON preferences text, a parser that
rejects it, and the resulting rejection with an empty action log. -/
theorem updateAllSettings_rejects_witness :
    updateAllSettings (fun _ => (none : Option Unit)) (fun _ => []) [] prefStateW =
      (Except.error Err.invalidPreferences, { prefStateW with isUpdatingPrefs := false },
        []) :=
  updateAllSettings_rejects Unit (fun _ => none) (fun _ => []) [] prefStateW
    (by decide) rfl

/-- Claim C9: for every baud rate in the enumerated set, connect followed by
disconnect returns to the released disconnected state, and a second
disconnect is a no-op on that state — disconnect is idempotent. -/
theorem connect_disconnect_roundtrip (b : Nat)
    (hb : b ∈ ([921600, 460800, 230400, 115200] : List Nat)) :
    connect envOk b initState = (Except.ok (), natState b) ∧
    (natState b).isConnected = true ∧
    disconnect envOk (natState b) = (Except.ok (), initState) ∧
    initState.isConnected = false ∧
    transportExists initState = false ∧
    disconnect envOk initState = (Except.ok (), initState) :=
  ⟨rfl, rfl, rfl, rfl, rfl, rfl⟩

/-- Claim C9 witness: the round trip at baud rate 115200. -/
theorem connect_disconnect_roundtrip_witness :
    connect envOk 115200 initState = (Except.ok (), natState 115200) ∧
    (natState 115200).isConnected = true ∧
    disconnect envOk (natState 115200) = (Except.ok (), initState) ∧
    initState.isConnected = false ∧
    transportExists initState = false ∧
    disconnect envOk initState = (Except.ok (), initState) :=
  connect_disconnect_roundtrip 115200 (by decide)

/-- Claim C10: when the `GET_ALL_PREFS` exchange yields an empty trimmed
response, `getAllSettings` raises the no-response error and leaves the
preferences untouched; a non-empty response is stored (pretty-printed when
parseable, raw otherwise); the loading flag is false afterwards in every
case. -/
theorem getAllSettings_spec (J : Type) (parse : List Char → Option J)
    (pretty : J → List Char) (tr : List ReadEvent) (s : SessionState)
    (hw : s.writer = true) (hr : s.reader = true) :
    (trimChars (loop tr 0 []).accum = [] →
      getAllSettings parse pretty tr s =
        (Except.error Err.noResponse, { s with isLoadingPrefs := false },
          SerialAction.write (getPrefsCmd ++ ['\n'])
            :: List.replicate (loop tr 0 []).reads SerialAction.read)) ∧
    (trimChars (loop tr 0 []).accum ≠ [] →
      getAllSettings parse pretty tr s =
        (Except.ok (),
          { s with isLoadingPrefs := false,
                   preferences :=
                     (match parse (trimChars (loop tr 0 []).accum) with
                      | some j => pretty j
                      | none => trimChars (loop tr 0 []).accum) },
          SerialAction.write (getPrefsCmd ++ ['\n'])
            :: List.replicate (loop tr 0 []).reads SerialAction.read)) ∧
    (getAllSettings parse pretty tr s).2.1.isLoadingPrefs = false := by
  refine ⟨?_, ?_, rfl⟩
  · intro he
    simp [getAllSettings, sendCommand, hw, hr, he]
  · intro he
    cases hp : parse (trimChars (loop tr 0 []).accum) <;>
      simp [getAllSettings, sendCommand, hw, hr, he, hp]

/-- Claim C10 witness: a fully silent device — empty trace, empty trimmed
response — produces the no-response error with preferences untouched. -/
theorem getAllSettings_spec_witness :
    getAllSettings (fun _ => (none : Option Unit)) (fun _ => []) [] (natState 115200) =
      (Except.error Err.noResponse, { natState 115200 with isLoadingPrefs := false },
        SerialAction.write (getPrefsCmd ++ ['\n'])
          :: List.replicate (loop [] 0 []).reads SerialAction.read) :=
  (getAllSettings_spec Unit (fun _ => none) (fun _ => []) [] (natState 115200)
    rfl rfl).1 (by decide)
